import Mathlib

/-!
Verification development for the Wayland backend fragment of the winit
windowing library (`src/platform_impl/linux/wayland/mod.rs`).

The fragment is shallowly embedded: Rust data types become Lean structures
and inductives, and the fragment's functions become Lean functions over
them.  Machine integers (`u32`, `u64`, `i32`) are modelled as `Nat`/`Int`
with explicit bounds where overflow matters; `f64` values are modelled by
the extended rationals `F64` below (an exact-arithmetic idealisation of
IEEE 754 binary64: finite values are exact rationals, and the special
values NaN and the two infinities are explicit constructors).  Fallible
operations return `Except`; wire requests issued on protocol objects are
reified as lists of request records.  External protocol-object types
(surfaces, pointers, tablet tools) are modelled by their object identity,
which is all the fragment observes of them.
-/

/-! ## Model of `f64` (extended rationals) -/

/-- Model of a Rust `f64` value: an exact rational for finite values, plus
the IEEE special values NaN, positive infinity and negative infinity.
Finite arithmetic in this model is exact (no binary64 rounding error). -/
inductive F64 where
  | finite (q : ℚ)
  | nan
  | posInf
  | negInf
deriving DecidableEq

/-- Rust `f64::round`: round to the nearest integer, ties away from zero. -/
def rustRound (q : ℚ) : ℤ :=
  if 0 ≤ q then Rat.floor (q + 1/2) else -Rat.floor (-q + 1/2)

/-- Rust float truncation (round toward zero), used by `as` casts. -/
def rustTrunc (q : ℚ) : ℤ :=
  if 0 ≤ q then Rat.floor q else -Rat.floor (-q)

/-- `f64::round` lifted to the `F64` model; NaN and infinities are fixed
points of rounding. -/
def F64.round : F64 → F64
  | .finite q => .finite (rustRound q)
  | .nan => .nan
  | .posInf => .posInf
  | .negInf => .negInf

/-- Maximum value of a Rust `u32`. -/
def u32Max : ℕ := 4294967295

/-- Rust saturating cast `f64 as u32`: NaN becomes 0, the value is
truncated toward zero and clamped to the representable range. -/
def f64AsU32 : F64 → ℕ
  | .nan => 0
  | .negInf => 0
  | .posInf => u32Max
  | .finite q => Int.toNat (min (max (rustTrunc q) 0) (u32Max : ℤ))

/-- Multiplication `n as f64 * s` for `n : u32` (a `u32` converts to `f64`
exactly) and an arbitrary scale `s`.  IEEE rules for the special values:
anything times NaN is NaN, zero times an infinity is NaN, and a positive
number times an infinity keeps the infinity's sign. -/
def F64.mulNat (n : ℕ) : F64 → F64
  | .finite q => .finite (n * q)
  | .nan => .nan
  | .posInf => if n = 0 then .nan else .posInf
  | .negInf => if n = 0 then .nan else .negInf

/-! ## Sizes and the coordinate converter -/

/-- `LogicalSize<u32>` from the library's dpi module: a size in logical
units, each axis a `u32` (modelled as `Nat`; bounds stated where used). -/
structure LogicalSize where
  width : ℕ
  height : ℕ
deriving DecidableEq

/-- `PhysicalSize<u32>`: a size in physical pixels. -/
structure PhysicalSize where
  width : ℕ
  height : ℕ
deriving DecidableEq

/-- Modelled from the spec: the `(f64, f64) -> PhysicalSize<u32>`
conversion (`.into()`) lives in the library's dpi module, which is outside
the visible fragment.  Per axis it applies `Pixel::from_f64` for `u32`
(`f.round() as u32`): round to nearest then Rust's saturating
float-to-integer cast (NaN to 0, result clamped to `[0, u32::MAX]`). -/
def pixelFromF64 (f : F64) : ℕ :=
  f64AsU32 f.round

/-- One axis of `logical_to_physical_rounded`: multiply the logical extent
by the scale factor (`size.width as f64 * scale_factor`), apply
`f64::round`, then convert to a `u32` pixel. -/
def physAxis (n : ℕ) (scale_factor : F64) : ℕ :=
  pixelFromF64 (F64.mulNat n scale_factor).round

/-- `logical_to_physical_rounded` from the source: each axis is the
logical extent times the scale factor, rounded (`f64::round`), then the
pair is converted into a `PhysicalSize<u32>` via the dpi conversion. -/
def logical_to_physical_rounded (size : LogicalSize) (scale_factor : F64) :
    PhysicalSize :=
  ⟨physAxis size.width scale_factor, physAxis size.height scale_factor⟩

/-! ## Protocol objects and window identity -/

/-- A `WlSurface` protocol object, modelled by its object identity: the
address returned by `surface.id().as_ptr()`.  Two live surfaces are the
same object exactly when their addresses coincide. -/
structure WlSurface where
  objectAddr : ℕ
deriving DecidableEq

/-- `WindowId` from the platform module: a newtype over `u64`. -/
structure WindowId where
  raw : ℕ
deriving DecidableEq

/-- `make_wid` from the source: the surface's object identity (a pointer),
cast `as u64` (reduction modulo `2^64`; a real address is below it). -/
def make_wid (surface : WlSurface) : WindowId :=
  ⟨surface.objectAddr % 2 ^ 64⟩

/-! ## Per-device pointer state and the error taxonomy -/

/-- `WinitPointerData` (seat module): the per-device bookkeeping attached
to a pointer or tablet-tool object.  The fragment reads one field of it,
the latest enter serial (a `u32` protocol serial, passed through without
arithmetic). -/
structure WinitPointerData where
  latestEnterSerial : ℕ
deriving DecidableEq

/-- A `WlPointer` protocol object together with its attached user data:
`id` is its object identity (what the protocol-level `==` compares), and
`winitData` is the `WinitPointerData` its user-data slot carries. -/
structure WlPointer where
  id : ℕ
  winitData : WinitPointerData
deriving DecidableEq

/-- A `ZwpTabletToolV2` protocol object, modelled by its object
identity. -/
structure ZwpTabletToolV2 where
  id : ℕ
deriving DecidableEq

/-- A symbolic cursor icon (`cursor_icon::CursorIcon`), modelled by an
opaque code. -/
structure CursorIcon where
  code : ℕ
deriving DecidableEq

/-- A resolved cursor image asset, modelled by an opaque identifier. -/
structure CursorImage where
  imageId : ℕ
deriving DecidableEq

/-- The active cursor theme: a finite table of icon-to-image assets. -/
structure CursorTheme where
  assets : List (CursorIcon × CursorImage)
deriving DecidableEq

/-- Modelled from the spec: the Cursor Theme collaborator's
`resolve(icon) -> Result<CursorImage, ThemeError>`, a lookup of the icon
in the active theme's assets; `none` when the icon has no asset. -/
def CursorTheme.resolve (theme : CursorTheme) (icon : CursorIcon) :
    Option CursorImage :=
  (theme.assets.find? fun a => a.1 == icon).map (·.2)

/-- `sctk::seat::pointer::PointerThemeError`: the error kind reported when
a cursor icon cannot be resolved against the active theme. -/
inductive PointerThemeError where
  | cursorNotFound
deriving DecidableEq

/-- `ThemedPointer<WinitPointerData>` (from sctk): a themed pointer bound
to a seat.  It wraps the underlying `WlPointer` object (whose user data
holds the `WinitPointerData`), the cursor surface it renders into, the
active cursor theme, and the currently assigned cursor image. -/
structure ThemedPointer where
  pointer : WlPointer
  surface : WlSurface
  theme : CursorTheme
  currentCursor : Option CursorImage
deriving DecidableEq

/-- `TabletPointer` (seat module, outside the visible fragment): a tablet
tool bound to a seat, wrapping the underlying tool object, its own
`WinitPointerData`, its cursor surface, the active theme, and the
currently assigned cursor image. -/
structure TabletPointer where
  tool : ZwpTabletToolV2
  winitData : WinitPointerData
  surface : WlSurface
  theme : CursorTheme
  currentCursor : Option CursorImage
deriving DecidableEq

/-- The protocol object a low-level set-cursor request is issued on:
the `wl_pointer` for an ordinary pointer, the tablet tool otherwise. -/
inductive CursorTarget where
  | pointer (p : WlPointer)
  | tool (t : ZwpTabletToolV2)
deriving DecidableEq

/-- A reified low-level "set cursor" wire request: the object it is issued
on, the input serial authorising it, the cursor surface (`none` is the
cursor-hiding form), and the hotspot coordinates (`i32`). -/
structure SetCursorRequest where
  target : CursorTarget
  serial : ℕ
  surface : Option WlSurface
  hotspot_x : ℤ
  hotspot_y : ℤ
deriving DecidableEq

/-- `wl_pointer::set_cursor`: the request the pointer object sends on the
wire, reified as a record. -/
def WlPointer.set_cursor (p : WlPointer) (serial : ℕ)
    (surface : Option WlSurface) (hotspot_x hotspot_y : ℤ) :
    SetCursorRequest :=
  ⟨.pointer p, serial, surface, hotspot_x, hotspot_y⟩

/-- `zwp_tablet_tool_v2::set_cursor`: the request the tool object sends on
the wire, reified as a record. -/
def ZwpTabletToolV2.set_cursor (t : ZwpTabletToolV2) (serial : ℕ)
    (surface : Option WlSurface) (hotspot_x hotspot_y : ℤ) :
    SetCursorRequest :=
  ⟨.tool t, serial, surface, hotspot_x, hotspot_y⟩

/-- Modelled from the spec: `ThemedPointer::set_cursor` (sctk, outside the
fragment) resolves the icon against the active theme and assigns the
resolved image as the device's visible cursor; when the icon cannot be
resolved it reports the theme error to the caller and changes nothing. -/
def ThemedPointer.set_cursor (p : ThemedPointer) (icon : CursorIcon) :
    Except PointerThemeError Unit × ThemedPointer :=
  match p.theme.resolve icon with
  | none => (.error .cursorNotFound, p)
  | some img => (.ok (), { p with currentCursor := some img })

/-- Modelled from the spec: `TabletPointer::set_cursor` (seat module,
outside the fragment) behaves like the themed pointer's: resolve the icon
against the active theme, assign on success, report the theme error and
change nothing on failure. -/
def TabletPointer.set_cursor (p : TabletPointer) (icon : CursorIcon) :
    Except PointerThemeError Unit × TabletPointer :=
  match p.theme.resolve icon with
  | none => (.error .cursorNotFound, p)
  | some img => (.ok (), { p with currentCursor := some img })

/-- `GenericPointer` from the source: the closed union of the two cursor
device variants. -/
inductive GenericPointer where
  | Default (pointer : ThemedPointer)
  | Tablet (pointer : TabletPointer)
deriving DecidableEq

namespace GenericPointer

/-- `GenericPointer::set_cursor` from the source: delegate to the active
variant's themed set-cursor.  The result is the returned
`Result<(), PointerThemeError>` paired with the updated device value. -/
def set_cursor (gp : GenericPointer) (icon : CursorIcon) :
    Except PointerThemeError Unit × GenericPointer :=
  match gp with
  | Default pointer =>
      let r := pointer.set_cursor icon
      (r.1, Default r.2)
  | Tablet pointer =>
      let r := pointer.set_cursor icon
      (r.1, Tablet r.2)

/-- `GenericPointer::surface` from the source: the cursor surface of the
active variant. -/
def surface : GenericPointer → WlSurface
  | Default pointer => pointer.surface
  | Tablet pointer => pointer.surface

/-- `GenericPointer::set_cursor_raw` from the source: issue the low-level
set-cursor request on the pointer object (Default) or the tool object
(Tablet), passing serial, surface option and hotspot through.  The list
collects the wire requests the call issues. -/
def set_cursor_raw (gp : GenericPointer) (serial : ℕ)
    (surface : Option WlSurface) (hotspot_x hotspot_y : ℤ) :
    List SetCursorRequest :=
  match gp with
  | Default pointer =>
      [pointer.pointer.set_cursor serial surface hotspot_x hotspot_y]
  | Tablet pointer =>
      [pointer.tool.set_cursor serial surface hotspot_x hotspot_y]

/-- `GenericPointer::winit_data` from the source: the per-device
bookkeeping, read from the `WlPointer`'s attached user data for the
Default variant and from the tablet pointer's own state for Tablet. -/
def winit_data : GenericPointer → WinitPointerData
  | Default pointer => pointer.pointer.winitData
  | Tablet pointer => pointer.winitData

/-- `GenericPointer::clear_cursor` from the source: in either variant,
issue the low-level set-cursor request with this device's own latest enter
serial, no surface, and hotspot `(0, 0)`. -/
def clear_cursor (gp : GenericPointer) : List SetCursorRequest :=
  match gp with
  | Default pointer =>
      [pointer.pointer.set_cursor gp.winit_data.latestEnterSerial none 0 0]
  | Tablet pointer =>
      [pointer.tool.set_cursor gp.winit_data.latestEnterSerial none 0 0]

/-- `impl PartialEq for GenericPointer` from the source: same-variant
values compare by the identity of the underlying protocol object
(`Proxy` equality); everything else is `false`. -/
def eq (a b : GenericPointer) : Bool :=
  match a, b with
  | Default a, Default b => a.pointer.id == b.pointer.id
  | Tablet a, Tablet b => a.tool.id == b.tool.id
  | _, _ => false

end GenericPointer

/-! ## The error taxonomy -/

/-- `wayland_client::ConnectError`, modelled by its `Display` output. -/
structure ConnectError where
  message : String
deriving DecidableEq

/-- `wayland_client::globals::GlobalError`, modelled by its `Display`
output. -/
structure GlobalError where
  message : String
deriving DecidableEq

/-- `wayland_client::globals::BindError`, modelled by its `Display`
output. -/
structure BindError where
  message : String
deriving DecidableEq

/-- `wayland_client::DispatchError`, modelled by its `Display` output. -/
structure DispatchError where
  message : String
deriving DecidableEq

/-- `calloop::Error`, modelled by its `Display` output. -/
structure CalloopError where
  message : String
deriving DecidableEq

/-- `wayland_client::backend::WaylandError` (the protocol-wire error),
modelled by its `Display` output. -/
structure WireError where
  message : String
deriving DecidableEq

/-- `WaylandError` from the source: the closed union of the backend's six
failure sources. -/
inductive WaylandError where
  | Connection (error : ConnectError)
  | Global (error : GlobalError)
  | Bind (error : BindError)
  | Dispatch (error : DispatchError)
  | Calloop (error : CalloopError)
  | Wire (error : WireError)
deriving DecidableEq

/-- `impl Display for WaylandError` from the source: each variant formats
by delegating to the wrapped error's own `Display` (`error.fmt(f)`). -/
def WaylandError.fmt : WaylandError → String
  | .Connection error => error.message
  | .Global error => error.message
  | .Bind error => error.message
  | .Dispatch error => error.message
  | .Calloop error => error.message
  | .Wire error => error.message

/-- The wrapped inner condition's own `Display` message, as the spec words
it: the description of whichever error the variant carries.  Stated
separately from `WaylandError.fmt` so that delegation is a theorem about
the source's `Display`, not a definition. -/
def WaylandError.wrappedMessage : WaylandError → String
  | .Connection error => error.message
  | .Global error => error.message
  | .Bind error => error.message
  | .Dispatch error => error.message
  | .Calloop error => error.message
  | .Wire error => error.message

/-- `std::sync::Arc`: the shared-ownership cell.  Cloning an `Arc` shares
the single wrapped value, so the model is the wrapped value itself. -/
structure Arc (α : Type) where
  value : α
deriving DecidableEq

/-- `Arc::new`. -/
def Arc.new {α : Type} (value : α) : Arc α := ⟨value⟩

/-- The platform module's `OsError` (outside the visible fragment), shown
here with the variant the fragment constructs: a shared-ownership-wrapped
`WaylandError`. -/
inductive OsError where
  | WaylandError (error : Arc WaylandError)
deriving DecidableEq

/-- `impl From<WaylandError> for OsError` from the source:
`Self::WaylandError(Arc::new(value))`. -/
def osErrorFromWayland (value : WaylandError) : OsError :=
  .WaylandError (Arc.new value)

/-- Modelled from the spec: the platform module's `Display` for `OsError`
(outside the visible fragment) preserves the wrapped condition's own
message for the Wayland variant. -/
def osErrorFmt : OsError → String
  | .WaylandError error => error.value.fmt

/-- Recover the wrapped `WaylandError` from the converted `OsError`. -/
def osErrorWaylandValue : OsError → WaylandError
  | .WaylandError error => error.value

/-! ## DeviceId -/

/-- `DeviceId` from the source: a fieldless unit struct. -/
structure DeviceId where
deriving DecidableEq

/-- `DeviceId::dummy`, the sole constructor (declared `const unsafe` in
the source; the privilege marker is a type-system attribute with no
runtime content, so here it is the plain constant). -/
def DeviceId.dummy : DeviceId := {}

/-- Rust's derived `Ord` on a fieldless struct: always `Equal`. -/
def DeviceId.cmp (_ _ : DeviceId) : Ordering := .eq

/-- Rust's derived `Hash` on a fieldless struct hashes no fields, so every
value feeds the hasher identically; the model maps every value to the one
digest of the empty field list. -/
def DeviceId.hashValue (_ : DeviceId) : ℕ := 0

/-! ## Observers and sample values used in the statements -/

/-- The active cursor theme of whichever variant is wrapped (both variants
carry one; `set_cursor` resolves against it). -/
def GenericPointer.theme : GenericPointer → CursorTheme
  | .Default pointer => pointer.theme
  | .Tablet pointer => pointer.theme

/-- A sample themed pointer: object identity `n`, latest enter serial `s`,
an empty cursor theme, no cursor assigned. -/
def sampleThemed (n s : ℕ) : ThemedPointer :=
  ⟨⟨n, ⟨s⟩⟩, ⟨100 + n⟩, ⟨[]⟩, none⟩

/-- A sample tablet pointer: tool identity `n`, latest enter serial `s`,
an empty cursor theme, no cursor assigned. -/
def sampleTablet (n s : ℕ) : TabletPointer :=
  ⟨⟨n⟩, ⟨s⟩, ⟨200 + n⟩, ⟨[]⟩, none⟩

/-! # Helper lemmas -/

lemma ratFloor_eq_floor (q : ℚ) : Rat.floor q = ⌊q⌋ := rfl

lemma floor_half : ⌊(1/2 : ℚ)⌋ = 0 := by
  rw [Int.floor_eq_zero_iff]
  constructor <;> norm_num

lemma rustRound_intCast (z : ℤ) : rustRound (z : ℚ) = z := by
  unfold rustRound
  split
  · rw [ratFloor_eq_floor, show ((z:ℚ) + 1/2) = (1/2 : ℚ) + z by ring,
      Int.floor_add_int, floor_half]
    omega
  · rw [ratFloor_eq_floor,
      show (-(z:ℚ) + 1/2) = (1/2 : ℚ) + (-z : ℤ) by push_cast; ring,
      Int.floor_add_int, floor_half]
    omega

lemma rustTrunc_intCast (z : ℤ) : rustTrunc (z : ℚ) = z := by
  unfold rustTrunc
  split
  · rw [ratFloor_eq_floor, Int.floor_intCast]
  · rw [ratFloor_eq_floor, show (-(z:ℚ)) = ((-z : ℤ) : ℚ) by push_cast; ring,
      Int.floor_intCast]
    omega

lemma rustRound_nonneg (q : ℚ) (h : 0 ≤ q) : 0 ≤ rustRound q := by
  unfold rustRound
  rw [if_pos h, ratFloor_eq_floor]
  have h' : (0:ℚ) ≤ q + 1/2 := by linarith
  exact Int.le_floor.mpr (by exact_mod_cast h')

lemma rustRound_eq_of (q : ℚ) (z : ℤ) (h0 : 0 ≤ q) (h1 : (z:ℚ) ≤ q + 1/2)
    (h2 : q + 1/2 < z + 1) : rustRound q = z := by
  unfold rustRound
  rw [if_pos h0, ratFloor_eq_floor]
  exact Int.floor_eq_iff.mpr ⟨h1, by exact_mod_cast h2⟩

lemma physAxis_finite (n : ℕ) (q : ℚ) :
    physAxis n (.finite q) =
      (min (max (rustRound (n * q)) 0) (u32Max : ℤ)).toNat := by
  simp [physAxis, pixelFromF64, F64.mulNat, F64.round, f64AsU32,
    rustRound_intCast, rustTrunc_intCast]

lemma physAxis_finite_nonneg (n : ℕ) (q : ℚ) (h : 0 ≤ q) :
    physAxis n (.finite q) = min (rustRound (n * q)).toNat u32Max := by
  rw [physAxis_finite]
  have h0 : 0 ≤ rustRound (n * q) := rustRound_nonneg _ (by positivity)
  omega

lemma physAxis_le (n : ℕ) (s : F64) : physAxis n s ≤ u32Max := by
  cases s with
  | finite q => rw [physAxis_finite]; omega
  | nan => simp [physAxis, F64.mulNat, F64.round, pixelFromF64, f64AsU32]
  | posInf =>
      rcases Nat.eq_zero_or_pos n with h | h
      · simp [physAxis, F64.mulNat, F64.round, pixelFromF64, f64AsU32, h]
      · simp [physAxis, F64.mulNat, F64.round, pixelFromF64, f64AsU32,
          Nat.pos_iff_ne_zero.mp h]
  | negInf =>
      rcases Nat.eq_zero_or_pos n with h | h
      · simp [physAxis, F64.mulNat, F64.round, pixelFromF64, f64AsU32, h]
      · simp [physAxis, F64.mulNat, F64.round, pixelFromF64, f64AsU32,
          Nat.pos_iff_ne_zero.mp h]

/-! # Claim theorems -/

/-- C1 counterexample: the claim "each physical axis is the logical axis
times the scale factor rounded to the nearest integer" fails at logical
width `4294967295` and scale `2`: the rounded product is `8589934590`, but
the code's saturating conversion to `u32` yields `4294967295`. -/
theorem logical_to_physical_rounded_saturates_above_u32max :
    (logical_to_physical_rounded ⟨4294967295, 4294967295⟩ (.finite 2)).width ≠
      (rustRound ((4294967295 : ℕ) * (2 : ℚ))).toNat := by
  have hr : rustRound (((4294967295 : ℕ) : ℚ) * (2 : ℚ)) = 8589934590 := by
    rw [show ((4294967295 : ℕ) : ℚ) * (2 : ℚ) = ((8589934590 : ℤ) : ℚ) by
      norm_num, rustRound_intCast]
  show physAxis 4294967295 (.finite 2) ≠ _
  rw [physAxis_finite_nonneg _ _ (by norm_num), hr]
  unfold u32Max
  omega

/-- C1 (amended): for every logical size and every non-negative finite
scale factor, `logical_to_physical_rounded` computes each physical axis as
the logical axis times the scale factor rounded to the nearest integer,
clamped to at most `u32::MAX` by the saturating conversion; in particular
`convert((0,0), s) = (0,0)` for any such `s`, `convert((10,10), 1.5) =
(15,15)`, and `convert((3,3), 1.333) = (4,4)`, not `(3,3)`. -/
theorem logical_to_physical_rounded_rounds_clamped :
    (∀ (size : LogicalSize) (q : ℚ), 0 ≤ q →
        logical_to_physical_rounded size (.finite q) =
          ⟨min (rustRound (size.width * q)).toNat u32Max,
           min (rustRound (size.height * q)).toNat u32Max⟩) ∧
    (∀ q : ℚ, 0 ≤ q →
        logical_to_physical_rounded ⟨0, 0⟩ (.finite q) = ⟨0, 0⟩) ∧
    logical_to_physical_rounded ⟨10, 10⟩ (.finite (3/2)) = ⟨15, 15⟩ ∧
    logical_to_physical_rounded ⟨3, 3⟩ (.finite (1333/1000)) = ⟨4, 4⟩ := by
  refine ⟨?_, ?_, ?_, ?_⟩
  · intro size q h
    unfold logical_to_physical_rounded
    rw [physAxis_finite_nonneg size.width q h, physAxis_finite_nonneg size.height q h]
  · intro q h
    have h0 : ((0:ℕ):ℚ) * q = ((0:ℤ):ℚ) := by push_cast; ring
    unfold logical_to_physical_rounded
    rw [physAxis_finite_nonneg _ _ h]
    rw [h0, rustRound_intCast]
    simp
  · have h15 : rustRound (((10:ℕ):ℚ) * (3/2)) = 15 := by
      rw [show ((10:ℕ):ℚ) * (3/2) = ((15 : ℤ) : ℚ) by norm_num, rustRound_intCast]
    unfold logical_to_physical_rounded
    rw [physAxis_finite_nonneg _ _ (by norm_num : (0:ℚ) ≤ 3/2), h15]
    unfold u32Max
    simp
  · have h4 : rustRound (((3:ℕ):ℚ) * (1333/1000)) = 4 := by
      apply rustRound_eq_of <;> norm_num
    unfold logical_to_physical_rounded
    rw [physAxis_finite_nonneg _ _ (by norm_num : (0:ℚ) ≤ 1333/1000), h4]
    unfold u32Max
    simp

/-- C1 witness: the amended claim applied at size `(10, 10)` and scale
`3/2`, the non-negativity hypothesis discharged concretely. -/
theorem logical_to_physical_rounded_rounds_clamped_witness :
    (0:ℚ) ≤ 3/2 ∧
    logical_to_physical_rounded ⟨10, 10⟩ (.finite (3/2)) =
      ⟨min (rustRound (((10:ℕ):ℚ) * (3/2))).toNat u32Max,
       min (rustRound (((10:ℕ):ℚ) * (3/2))).toNat u32Max⟩ :=
  ⟨by norm_num,
   logical_to_physical_rounded_rounds_clamped.1 ⟨10, 10⟩ (3/2) (by norm_num)⟩

/-- C10: `logical_to_physical_rounded` is total over the whole model of
`f64` scales (it is a Lean function, so it never panics), every result
axis is at most `u32::MAX`, a NaN product yields 0 (a NaN scale, or a zero
axis times an infinity), a negative-infinity scale yields 0, a positive
product overflow saturates to `u32::MAX` (positive infinity with a
positive axis, or a finite product rounding above `u32::MAX`), and a
finite product rounding negative yields 0. -/
theorem logical_to_physical_rounded_total_saturating :
    (∀ (size : LogicalSize) (s : F64),
        (logical_to_physical_rounded size s).width ≤ u32Max ∧
        (logical_to_physical_rounded size s).height ≤ u32Max) ∧
    (∀ n : ℕ, physAxis n .nan = 0) ∧
    (∀ n : ℕ, physAxis n .negInf = 0) ∧
    (∀ n : ℕ, 0 < n → physAxis n .posInf = u32Max) ∧
    physAxis 0 .posInf = 0 ∧
    (∀ (n : ℕ) (q : ℚ), rustRound (n * q) < 0 → physAxis n (.finite q) = 0) ∧
    (∀ (n : ℕ) (q : ℚ), (u32Max : ℤ) < rustRound (n * q) →
        physAxis n (.finite q) = u32Max) := by
  refine ⟨?_, ?_, ?_, ?_, ?_, ?_, ?_⟩
  · intro size s; exact ⟨physAxis_le _ _, physAxis_le _ _⟩
  · intro n; rfl
  · intro n
    rcases Nat.eq_zero_or_pos n with h | h
    · simp [physAxis, F64.mulNat, F64.round, pixelFromF64, f64AsU32, h]
    · simp [physAxis, F64.mulNat, F64.round, pixelFromF64, f64AsU32,
        Nat.pos_iff_ne_zero.mp h]
  · intro n h
    simp [physAxis, F64.mulNat, F64.round, pixelFromF64, f64AsU32,
      Nat.pos_iff_ne_zero.mp h]
  · rfl
  · intro n q h; rw [physAxis_finite]; omega
  · intro n q h; rw [physAxis_finite]; omega

/-- C10 witness: the saturating cases applied at axis 1, for the scales
positive infinity, `-2`, and `8589934592`, each hypothesis discharged
concretely. -/
theorem logical_to_physical_rounded_total_saturating_witness :
    physAxis 1 F64.posInf = u32Max ∧
    physAxis 1 (F64.finite (-2)) = 0 ∧
    physAxis 1 (F64.finite 8589934592) = u32Max := by
  refine ⟨?_, ?_, ?_⟩
  · exact logical_to_physical_rounded_total_saturating.2.2.2.1 1 (by omega)
  · apply logical_to_physical_rounded_total_saturating.2.2.2.2.2.1
    rw [show ((1:ℕ):ℚ) * (-2 : ℚ) = ((-2 : ℤ) : ℚ) by norm_num, rustRound_intCast]
    omega
  · apply logical_to_physical_rounded_total_saturating.2.2.2.2.2.2
    rw [show ((1:ℕ):ℚ) * (8589934592 : ℚ) = ((8589934592 : ℤ) : ℚ) by norm_num,
      rustRound_intCast]
    unfold u32Max
    omega

/-- C2: for every `GenericPointer`, `clear_cursor()` issues exactly the
request sequence of `set_cursor_raw` called with the device's own
last-recorded enter serial (read from its attached per-device state), no
surface, and hotspot `(0, 0)`. -/
theorem clear_cursor_refines_set_cursor_raw :
    ∀ gp : GenericPointer,
      gp.clear_cursor =
        gp.set_cursor_raw gp.winit_data.latestEnterSerial none 0 0 := by
  intro gp
  cases gp <;> rfl

/-- C3: two `GenericPointer` values compare equal iff they are the same
variant and the underlying protocol objects (pointer for Default, tool for
Tablet) have equal identity; every cross-variant pair compares unequal. -/
theorem genericPointer_eq_iff :
    (∀ a b : GenericPointer,
        GenericPointer.eq a b = true ↔
          ((∃ pa pb, a = .Default pa ∧ b = .Default pb ∧
              pa.pointer.id = pb.pointer.id) ∨
           (∃ ta tb, a = .Tablet ta ∧ b = .Tablet tb ∧
              ta.tool.id = tb.tool.id))) ∧
    (∀ (p : ThemedPointer) (t : TabletPointer),
        GenericPointer.eq (.Default p) (.Tablet t) = false ∧
        GenericPointer.eq (.Tablet t) (.Default p) = false) := by
  constructor
  · intro a b
    cases a <;> cases b <;> simp [GenericPointer.eq]
  · intro p t
    exact ⟨rfl, rfl⟩

/-- C3 witness: the equality criterion applied concretely: two Default
values over pointer objects of equal identity (but different attached
serials) are equal, and a Default/Tablet pair is not. -/
theorem genericPointer_eq_iff_witness :
    GenericPointer.eq (.Default (sampleThemed 1 5))
        (.Default (sampleThemed 1 6)) = true ∧
    GenericPointer.eq (.Default (sampleThemed 1 5))
        (.Tablet (sampleTablet 1 6)) ≠ true := by
  constructor
  · exact (genericPointer_eq_iff.1 _ _).mpr (Or.inl ⟨_, _, rfl, rfl, rfl⟩)
  · intro h
    rcases (genericPointer_eq_iff.1 _ _).mp h with
      ⟨pa, pb, h1, h2, _⟩ | ⟨ta, tb, h1, h2, _⟩
    · exact GenericPointer.noConfusion h2
    · exact GenericPointer.noConfusion h1

/-- C4: `make_wid` is the surface's object identity reinterpreted as a
`u64`; it is a pure function (repeated calls agree), and distinct live
surfaces (distinct addresses, both within the pointer range) give
distinct `WindowId`s. -/
theorem make_wid_identity :
    (∀ s1 s2 : WlSurface, s1.objectAddr < 2 ^ 64 → s2.objectAddr < 2 ^ 64 →
        s1 ≠ s2 → make_wid s1 ≠ make_wid s2) ∧
    (∀ s : WlSurface, make_wid s = make_wid s) ∧
    (∀ s : WlSurface, make_wid s = ⟨s.objectAddr % 2 ^ 64⟩) := by
  refine ⟨?_, fun s => rfl, fun s => rfl⟩
  intro s1 s2 h1 h2 hne heq
  apply hne
  cases s1 with | mk a1 =>
  cases s2 with | mk a2 =>
  simp only [make_wid, WindowId.mk.injEq] at heq
  simp only [WlSurface.mk.injEq]
  simp only at h1 h2
  omega

/-- C4 witness: injectivity applied to the surfaces at addresses 1 and 2,
all hypotheses discharged concretely. -/
theorem make_wid_identity_witness :
    make_wid ⟨1⟩ ≠ make_wid ⟨2⟩ :=
  make_wid_identity.1 ⟨1⟩ ⟨2⟩ (by norm_num) (by norm_num) (by decide)

/-- C5: for every `WaylandError` variant, the rendered message delegates
to the wrapped inner condition's own `Display` message, the conversion to
`OsError` preserves that message, and it is non-empty whenever the inner
message is. -/
theorem waylandError_display_delegates :
    ∀ e : WaylandError,
      e.fmt = e.wrappedMessage ∧
      osErrorFmt (osErrorFromWayland e) = e.wrappedMessage ∧
      (e.wrappedMessage ≠ "" → osErrorFmt (osErrorFromWayland e) ≠ "") := by
  intro e
  refine ⟨?_, ?_, ?_⟩ <;>
    cases e <;>
      simp [WaylandError.fmt, WaylandError.wrappedMessage, osErrorFmt,
        osErrorFromWayland, Arc.new]

/-- C5 witness: the delegation applied at a concrete connection error with
a non-empty message, the hypothesis discharged concretely. -/
theorem waylandError_display_delegates_witness :
    (WaylandError.Connection ⟨"connect failed"⟩).wrappedMessage ≠ "" ∧
    osErrorFmt (osErrorFromWayland (.Connection ⟨"connect failed"⟩)) ≠ "" := by
  have h : (WaylandError.Connection ⟨"connect failed"⟩).wrappedMessage ≠ "" := by
    decide
  exact ⟨h, (waylandError_display_delegates _).2.2 h⟩

/-- C6: when the requested icon cannot be resolved against the active
cursor theme, `set_cursor` returns the theme-error result and the device
value — including its previously assigned cursor — is unchanged. -/
theorem set_cursor_theme_error_no_mutation :
    ∀ (gp : GenericPointer) (icon : CursorIcon),
      gp.theme.resolve icon = none →
        gp.set_cursor icon = (.error .cursorNotFound, gp) := by
  intro gp icon h
  cases gp with
  | Default p =>
      simp only [GenericPointer.theme] at h
      simp [GenericPointer.set_cursor, ThemedPointer.set_cursor, h]
  | Tablet p =>
      simp only [GenericPointer.theme] at h
      simp [GenericPointer.set_cursor, TabletPointer.set_cursor, h]

/-- C6 witness: a themed pointer over the empty theme, asked for icon 9:
the resolution fails and `set_cursor` reports the error with the device
unchanged; the hypothesis is discharged by computation. -/
theorem set_cursor_theme_error_no_mutation_witness :
    (GenericPointer.Default (sampleThemed 1 5)).theme.resolve ⟨9⟩ = none ∧
    (GenericPointer.Default (sampleThemed 1 5)).set_cursor ⟨9⟩ =
      (.error .cursorNotFound, .Default (sampleThemed 1 5)) := by
  have h : (GenericPointer.Default (sampleThemed 1 5)).theme.resolve ⟨9⟩ =
      none := rfl
  exact ⟨h, set_cursor_theme_error_no_mutation _ _ h⟩

/-- C7: the conversion `From<WaylandError> for OsError` wraps the very
same value in a shared-ownership cell, the original is recoverable, and
distinct inputs are never collapsed. -/
theorem osError_from_wayland_lossless :
    (∀ e : WaylandError, osErrorFromWayland e = .WaylandError (Arc.new e)) ∧
    (∀ e : WaylandError, osErrorWaylandValue (osErrorFromWayland e) = e) ∧
    (∀ e1 e2 : WaylandError,
        osErrorFromWayland e1 = osErrorFromWayland e2 → e1 = e2) := by
  refine ⟨fun e => rfl, fun e => rfl, ?_⟩
  intro e1 e2 h
  have h' := congrArg osErrorWaylandValue h
  simpa [osErrorWaylandValue, osErrorFromWayland, Arc.new] using h'

/-- C7 witness: injectivity applied at a concrete calloop error, the
equality hypothesis discharged by reflexivity. -/
theorem osError_from_wayland_lossless_witness :
    WaylandError.Calloop ⟨"io error"⟩ = WaylandError.Calloop ⟨"io error"⟩ :=
  osError_from_wayland_lossless.2.2 _ _ rfl

/-- C8: `set_cursor_raw` issues exactly one wire request, on the pointer
object for Default and on the tool object for Tablet, passing serial,
surface option and hotspot through unchanged; the request's surface is
absent (the cursor-hiding form) exactly when the caller passed `None`. -/
theorem set_cursor_raw_single_passthrough :
    ∀ (gp : GenericPointer) (serial : ℕ) (surf : Option WlSurface)
      (hx hy : ℤ),
      (gp.set_cursor_raw serial surf hx hy).length = 1 ∧
      (∀ p, gp = .Default p →
          gp.set_cursor_raw serial surf hx hy =
            [⟨.pointer p.pointer, serial, surf, hx, hy⟩]) ∧
      (∀ t, gp = .Tablet t →
          gp.set_cursor_raw serial surf hx hy =
            [⟨.tool t.tool, serial, surf, hx, hy⟩]) ∧
      (∀ r ∈ gp.set_cursor_raw serial surf hx hy,
          (r.surface = none ↔ surf = none)) := by
  intro gp serial surf hx hy
  refine ⟨?_, ?_, ?_, ?_⟩
  · cases gp <;> rfl
  · intro p hp; subst hp; rfl
  · intro t ht; subst ht; rfl
  · intro r hr
    cases gp <;>
      simp only [GenericPointer.set_cursor_raw, WlPointer.set_cursor,
        ZwpTabletToolV2.set_cursor, List.mem_singleton] at hr <;>
      subst hr <;> exact Iff.rfl

/-- C8 witness: the pass-through applied to a concrete Default pointer
with serial 7, no surface and hotspot (2, 3); the variant and membership
hypotheses are discharged concretely. -/
theorem set_cursor_raw_single_passthrough_witness :
    (GenericPointer.Default (sampleThemed 1 5)).set_cursor_raw 7 none 2 3 =
      [⟨.pointer (sampleThemed 1 5).pointer, 7, none, 2, 3⟩] ∧
    ((⟨.pointer (sampleThemed 1 5).pointer, 7, none, 2, 3⟩ :
        SetCursorRequest).surface = none ↔ (none : Option WlSurface) = none) := by
  constructor
  · exact (set_cursor_raw_single_passthrough _ 7 none 2 3).2.1 _ rfl
  · exact (set_cursor_raw_single_passthrough
      (.Default (sampleThemed 1 5)) 7 none 2 3).2.2.2 _
      (List.mem_singleton_self _)

/-- C9: `DeviceId` is a unit type: any two values are equal, they compare
as equal under the derived total order, hash identically, and every value
is the one produced by the `dummy` constructor.  (That `dummy` is declared
`unsafe` is a source-level visibility attribute, checked by inspection of
the source, with no semantic content to embed.) -/
theorem deviceId_unit_sentinel :
    (∀ a b : DeviceId, a = b) ∧
    (∀ a b : DeviceId, DeviceId.cmp a b = Ordering.eq) ∧
    (∀ a b : DeviceId, DeviceId.hashValue a = DeviceId.hashValue b) ∧
    (∀ a : DeviceId, a = DeviceId.dummy) := by
  refine ⟨?_, fun a b => rfl, fun a b => rfl, ?_⟩
  · intro a b; cases a; cases b; rfl
  · intro a; cases a; rfl
